import Mathlib

/-!
Verification development for the calculadora-ecodoppler regional wall-motion
engine (`src/js/hemodynamics.js` MotilityController, `src/unnamed/part_003`
MotilityModel, `src/js/ui-lanus.js` UIController.generateReport fragments).

Embedding conventions:
* The severity state object `this.state` always holds exactly the keys 1..17
  after initialization; it is embedded as a `List Int` of length 17 whose
  entry at position `i` is the severity of segment id `i + 1`.  `Object.entries`
  iterates integer-like keys in ascending numeric order, which matches list
  order.
* JavaScript numbers that the motility code stores as severities are integers
  (1..4 from the UI toggles and pattern tables), embedded as `Int`.
* `(sum / 17).toFixed(2)` is embedded as rounding `100 * sum / 17` half-up to
  an integer number of hundredths and rendering with two decimals.  For every
  sum of 17 integer severities the exact rational `100 * sum / 17` is never
  half-way between two integers (`200 * sum = 34 * m + 17` is impossible by
  parity) and is at distance at least `1/34` from every half-integer, far
  above the `2^-52` relative error of the double computation, so the double
  `toFixed(2)` result agrees with exact rational rounding.
-/

set_option maxRecDepth 100000

namespace Ecodoppler

/-- Severity map: position `i` holds the severity of segment id `i + 1`.
Mirrors the `this.state` object of `MotilityController` (keys 1..17). -/
abbrev SevMap := List Int

/-- `getDefaultState()`: all 17 segments normal (severity 1). -/
def getDefaultState : SevMap := List.replicate 17 1

/-- `MotilityModel.SEGMENTS[id].name` (part_003 lines 8-33). -/
def segName (id : Nat) : String :=
  match id with
  | 1 => "Basal Anterior"
  | 2 => "Basal Anteroseptal"
  | 3 => "Basal Inferoseptal"
  | 4 => "Basal Inferior"
  | 5 => "Basal Inferolateral"
  | 6 => "Basal Anterolateral"
  | 7 => "Medio Anterior"
  | 8 => "Medio Anteroseptal"
  | 9 => "Medio Inferoseptal"
  | 10 => "Medio Inferior"
  | 11 => "Medio Inferolateral"
  | 12 => "Medio Anterolateral"
  | 13 => "Apical Anterior"
  | 14 => "Apical Septal"
  | 15 => "Apical Inferior"
  | 16 => "Apical Lateral"
  | 17 => "Apex"
  | _ => ""

/-- `MotilityModel.SEGMENTS[id].artery` (part_003 lines 8-33). -/
def segArtery (id : Nat) : String :=
  match id with
  | 1 => "DA" | 2 => "DA" | 7 => "DA" | 8 => "DA"
  | 13 => "DA" | 14 => "DA" | 17 => "DA"
  | 3 => "CD" | 4 => "CD" | 9 => "CD" | 10 => "CD" | 15 => "CD"
  | 5 => "Cx" | 6 => "Cx" | 11 => "Cx" | 12 => "Cx" | 16 => "Cx"
  | _ => ""

/-- `Object.entries(this.state)` as (segment id, severity) pairs in ascending
id order. -/
def segEntries (st : SevMap) : List (Nat × Int) :=
  st.enum.map (fun p => (p.1 + 1, p.2))

/-- `toggleSegment(segmentId)` state effect (hemodynamics.js 338-345):
`this.state[segmentId] = (current % 4) + 1`.  JavaScript `%` is the truncated
remainder, i.e. `Int.tmod`. -/
def toggleSegment (segmentId : Nat) (st : SevMap) : SevMap :=
  st.set (segmentId - 1) ((st.getD (segmentId - 1) 0).tmod 4 + 1)

/-- Result of `setSegmentState`: the new state plus whether the call persisted
to storage and notified listeners (both happen exactly when the guard
`state >= 1 && state <= 4` passes). -/
structure SetResult where
  state : SevMap
  persisted : Bool
  notified : Bool
  deriving DecidableEq, Repr

/-- `setSegmentState(segmentId, state)` (hemodynamics.js 348-355): guarded
direct set; outside 1..4 the body is skipped entirely (no write, no
`saveToStorage`, no `notifyListeners`). -/
def setSegmentState (segmentId : Nat) (v : Int) (st : SevMap) : SetResult :=
  if 1 ≤ v ∧ v ≤ 4 then
    ⟨st.set (segmentId - 1) v, true, true⟩
  else
    ⟨st, false, false⟩

/-- Sum of `Object.values(this.state)` (hemodynamics.js 359). -/
def sumVals (st : SevMap) : Int := st.sum

/-- `calculateWMSI()` in hundredths: round-half-up of `100 * sum / 17`,
which is `⌊(200 * sum + 17) / 34⌋` (see header note on `toFixed(2)`). -/
def calculateWMSIh (st : SevMap) : Int := (200 * sumVals st + 17) / 34

/-- Two-digit zero padding of `n < 100`. -/
def pad2 (n : Nat) : String :=
  if n < 10 then "0" ++ toString n else toString n

/-- Render hundredths as the `toFixed(2)` string, e.g. `135 ↦ "1.35"`. -/
def fmtFixed2 (h : Int) : String :=
  toString (h.toNat / 100) ++ "." ++ pad2 (h.toNat % 100)

/-- `calculateWMSI()` (hemodynamics.js 357-361): returns the `toFixed(2)`
string. -/
def calculateWMSI (st : SevMap) : String := fmtFixed2 (calculateWMSIh st)

/-- The three severity tiers of `getAbnormalSegments()`. -/
structure Abnormal where
  hypokinetic : List Nat
  akinetic : List Nat
  dyskinetic : List Nat
  deriving DecidableEq, Repr

/-- `getAbnormalSegments()` (hemodynamics.js 364-379): partitions segment ids
by exact severity 2 / 3 / 4, ascending id order. -/
def getAbnormalSegments (st : SevMap) : Abnormal :=
  { hypokinetic := ((segEntries st).filter (fun e => e.2 = 2)).map (·.1)
    akinetic := ((segEntries st).filter (fun e => e.2 = 3)).map (·.1)
    dyskinetic := ((segEntries st).filter (fun e => e.2 = 4)).map (·.1) }

/-- Total number of abnormal-tier segments, as computed at the top of
`generateMotilityReport` / `generateConclusion`. -/
def totalAbnormal (st : SevMap) : Nat :=
  (getAbnormalSegments st).hypokinetic.length +
    (getAbnormalSegments st).akinetic.length +
    (getAbnormalSegments st).dyskinetic.length

/-- The `abnormalIds` list of `getAffectedTerritory` (hemodynamics.js
383-385): ids whose severity is `> 1`. -/
def abnormalIds (st : SevMap) : List Nat :=
  ((segEntries st).filter (fun e => e.2 > 1)).map (·.1)

/-- Per-territory abnormal count (the `scores` object, hemodynamics.js
390-401). -/
def terrScore (st : SevMap) (artery : String) : Nat :=
  (abnormalIds st).countP (fun id => segArtery id = artery)

/-- `getAffectedTerritory()` (hemodynamics.js 382-405).  The final line is
`Object.keys(scores).reduce((a, b) => scores[a] > scores[b] ? a : b)` over
keys in insertion order DA, CD, Cx; on a tie the reduce keeps `b`, the later
key. -/
def getAffectedTerritory (st : SevMap) : Option String :=
  if (abnormalIds st).length = 0 then
    none
  else
    let scoreOf : String → Nat := fun a => terrScore st a
    let r1 := if scoreOf "DA" > scoreOf "CD" then "DA" else "CD"
    some (if scoreOf r1 > scoreOf "Cx" then r1 else "Cx")

/-! ### String helpers shared by the report generators -/

/-- Character-list implementation of `String.toLowerCase` restricted to
ASCII (`Char.toLower`); every string the report pipeline lowercases is
compared against ASCII tokens, so this matches the JavaScript behaviour on
all relevant inputs. -/
def strToLower (s : String) : String := ⟨s.toList.map Char.toLower⟩

/-- Character-list implementation of `String.startsWith`. -/
def strStartsWith (s p : String) : Bool := p.toList.isPrefixOf s.toList

/-- Character-list implementation of `String.drop`. -/
def strDrop (s : String) (n : Nat) : String := ⟨s.toList.drop n⟩

/-- ASCII whitespace (the whitespace actually occurring around the
conclusions fed to the merge logic). -/
def isJsWs (c : Char) : Bool := c = ' ' ∨ c = '\t' ∨ c = '\n' ∨ c = '\r'

/-- Character-list implementation of `String.trim`. -/
def strTrim (s : String) : String :=
  ⟨((s.toList.dropWhile isJsWs).reverse.dropWhile isJsWs).reverse⟩

/-- Accumulator for `splitOnSpace`. -/
def splitOnSpaceAux (cur : List Char) : List Char → List String
  | [] => [⟨cur.reverse⟩]
  | c :: r =>
    if c = ' ' then (⟨cur.reverse⟩ : String) :: splitOnSpaceAux [] r
    else splitOnSpaceAux (c :: cur) r

/-- JavaScript `split(' ')`. -/
def splitOnSpace (s : String) : List String := splitOnSpaceAux [] s.toList

/-- Number of positions of `s` at which `pat` occurs as a substring. -/
def countSubstr (s pat : String) : Nat :=
  (List.range (s.toList.length + 1)).countP
    (fun i => pat.toList.isPrefixOf (s.toList.drop i))

/-- JavaScript `String.prototype.includes`. -/
def strIncludes (s pat : String) : Bool :=
  (List.range (s.toList.length + 1)).any
    (fun i => pat.toList.isPrefixOf (s.toList.drop i))

/-- JavaScript `String.prototype.replace(pat, rep)` with a plain-string
pattern: replaces the first occurrence only. -/
def replFirstAux (s pat rep : List Char) : List Char :=
  match s with
  | [] => if pat.isPrefixOf ([] : List Char) then rep else []
  | c :: rest =>
    if pat.isPrefixOf (c :: rest) then rep ++ (c :: rest).drop pat.length
    else c :: replFirstAux rest pat rep

/-- String wrapper for `replFirstAux`. -/
def replaceFirst (s pat rep : String) : String :=
  ⟨replFirstAux s.toList pat.toList rep.toList⟩

/-- Accumulator for `dedupFirst`: `seen` holds already-emitted elements. -/
def dedupFirstAux (seen : List String) : List String → List String
  | [] => []
  | a :: l => if a ∈ seen then dedupFirstAux seen l else a :: dedupFirstAux (a :: seen) l

/-- `[...new Set(xs)]`: deduplicate keeping first occurrences. -/
def dedupFirst (ls : List String) : List String := dedupFirstAux [] ls

/-- The `order` map of the level comparator (hemodynamics.js 578-581). -/
def levelOrder (l : String) : Nat :=
  if l = "basal" then 0 else if l = "media" then 1 else if l = "apical" then 2 else 3

/-- Stable insertion used to model `levels.sort((a, b) => order[a] - order[b])`.
All comparator keys are defined and duplicate levels are identical strings, so
any order-correct sort produces the JavaScript result. -/
def insertByOrder (x : String) : List String → List String
  | [] => [x]
  | y :: r => if levelOrder x < levelOrder y then x :: y :: r else y :: insertByOrder x r

/-- Sort levels basal → media → apical. -/
def sortLevels (ls : List String) : List String := ls.foldr insertByOrder []

/-! ### Wall helpers (hemodynamics.js 446-471) -/

/-- `getWallName(segmentId)`: strip the regex `^(Basal|Medio|Apical)\s+` (all
segment names have exactly one space after the level word) and replace the
first `"Apex"` with `"Apical"`. -/
def getWallName (id : Nat) : String :=
  let name := segName id
  let base :=
    if strStartsWith name "Basal " then strDrop name 6
    else if strStartsWith name "Medio " then strDrop name 6
    else if strStartsWith name "Apical " then strDrop name 7
    else name
  replaceFirst base "Apex" "Apical"

/-- `getLevel(segmentId)` (hemodynamics.js 454-460). -/
def getLevel (id : Nat) : String :=
  let name := segName id
  if strStartsWith name "Basal" then "basal"
  else if strStartsWith name "Medio" then "media"
  else if strStartsWith name "Apical" || name = "Apex" then "apical"
  else "apical"

/-- `formatWallName(wall)` (hemodynamics.js 463-471). -/
def formatWallName (wall : String) : String :=
  let lowerWall := strToLower wall
  if strIncludes lowerWall "anteroseptal" then "anteroseptal"
  else if strIncludes lowerWall "inferoseptal" then "inferoseptal"
  else if strIncludes lowerWall "inferolateral" then "inferolateral"
  else if strIncludes lowerWall "anterolateral" then "anterolateral"
  else lowerWall

/-! ### Pattern library (part_003 `MotilityModel.PATTERNS`) -/

/-- A named clinical pattern (part_003 lines 63-241). -/
structure Pattern where
  name : String
  description : String
  affectedSegments : List Nat
  severity : Int
  category : String
  isDiffuse : Bool := false
  deriving Repr

/-- `MotilityModel.PATTERNS` lookup. -/
def PATTERNS (n : String) : Option Pattern :=
  match n with
  | "ischemic_da" => some ⟨"Isquémico DA", "Patrón isquémico territorial en descendente anterior", [1, 2, 7, 8, 13, 14, 17], 2, "ischemic", false⟩
  | "ischemic_cd" => some ⟨"Isquémico CD", "Patrón isquémico territorial en coronaria derecha", [3, 4, 9, 10, 15], 2, "ischemic", false⟩
  | "ischemic_cx" => some ⟨"Isquémico Cx", "Patrón isquémico territorial en circunfleja", [5, 6, 11, 12, 16], 2, "ischemic", false⟩
  | "ischemic_multivessel" => some ⟨"Isquemia Multivaso", "Patrón isquémico de múltiples territorios", [1, 2, 4, 7, 8, 10, 13, 14, 15, 17], 2, "ischemic", false⟩
  | "takotsubo_apical" => some ⟨"Takotsubo Apical", "Patrón apical clásico (capuchón apical)", [13, 14, 15, 16, 17], 2, "takotsubo", false⟩
  | "takotsubo_mid" => some ⟨"Takotsubo Medioventricular", "Patrón medioventricular (rosquilla)", [7, 8, 9, 10, 11, 12], 2, "takotsubo", false⟩
  | "takotsubo_inverted" => some ⟨"Takotsubo Invertido", "Patrón basal (invertido)", [1, 2, 3, 4, 5, 6], 2, "takotsubo", false⟩
  | "takotsubo_focal" => some ⟨"Takotsubo Focal", "Patrón focal anterolateral", [6, 12], 2, "takotsubo", false⟩
  | "dilated_cm" => some ⟨"Miocardiopatía Dilatada", "Hipoquinesia difusa global", [1, 2, 3, 4, 5, 6, 7, 8, 9, 10, 11, 12, 13, 14, 15, 16], 2, "cardiomyopathy", true⟩
  | "hypertensive_cm" => some ⟨"Cardiopatía Hipertensiva", "Compromiso basal predominante", [1, 2, 3, 4, 5, 6, 7, 8, 9, 10, 11, 12], 2, "cardiomyopathy", true⟩
  | "chagas" => some ⟨"Chagas", "Patrón típico: aneurisma apical + compromiso inferobasal", [4, 10, 17], 2, "cardiomyopathy", false⟩
  | "da_cx" => some ⟨"DA + Cx (Anterolateral ext)", "Compromiso anterior y anterolateral", [1, 6, 7, 12, 13, 16, 17], 2, "combined", false⟩
  | "da_cd_wrap" => some ⟨"DA envolvente (Wrap-around)", "Compromiso anterior con extensión inferior apical", [1, 2, 7, 8, 13, 14, 15, 17], 2, "combined", false⟩
  | "cx_cd" => some ⟨"Cx + CD (Inferolateral)", "Compromiso inferior e inferolateral", [4, 5, 10, 11, 15], 2, "combined", false⟩
  | "multivessel" => some ⟨"Multivaso (DA+Cx+CD)", "Compromiso multiterritorial difuso", [1, 2, 3, 4, 5, 6, 7, 8, 9, 10, 11, 12, 13, 14, 15, 16], 2, "combined", false⟩
  | "left_main" => some ⟨"Tronco CI", "Compromiso extenso anterior y lateral (bases)", [1, 2, 5, 6, 7, 8, 11, 12, 13, 14], 2, "combined", false⟩
  | "da_distal" => some ⟨"DA Distal / Apical pura", "Compromiso apical anterior y septal, bases preservadas", [13, 14, 15, 16, 17], 2, "combined", false⟩
  | "bcri" => some ⟨"BCRI / Disincronía", "Disincronía mecánica por bloqueo de rama izquierda", [2, 3, 8, 9, 14], 2, "dyssynchrony", false⟩
  | "bcrd" => some ⟨"BCRD (Rama Derecha)", "Asincronía septal leve por bloqueo de rama derecha", [2, 8], 1, "dyssynchrony", false⟩
  | "pacemaker" => some ⟨"Marcapasos (MCP)", "Disincronía por estimulación ventricular", [2, 3, 8, 9, 14], 2, "dyssynchrony", false⟩
  | "post_surgery" => some ⟨"Post Cirugía Cardíaca", "Movimiento septal anómalo post-quirúrgico", [2, 3, 8, 9, 14], 2, "dyssynchrony", false⟩
  | "aneurysm_anterior" => some ⟨"Aneurisma Anterior", "Disquinesia de pared anterior", [1, 7, 13], 4, "special", false⟩
  | "aneurysm_apical" => some ⟨"Aneurisma Apical", "Disquinesia/aquinesia apical", [13, 14, 15, 16, 17], 4, "special", false⟩
  | "aneurysm_inferior" => some ⟨"Aneurisma Inferior", "Disquinesia de pared inferior", [4, 10, 15], 4, "special", false⟩
  | _ => none

/-- The mutable controller state: severity map plus `this.pattern`. -/
structure MotilityState where
  state : SevMap
  pattern : String
  deriving Repr

/-- `setPattern(patternName)` (hemodynamics.js 725-748): records the name;
when the name is not `'none'`, resolves in `PATTERNS` and, if the pattern has
affected segments, resets ids 1..17 to 1 and writes
`pattern.severity || 3` (JavaScript `||`: the default 3 applies when
`severity` is absent or 0) over each affected id. -/
def setPattern (patternName : String) (ms : MotilityState) : MotilityState :=
  let ms := { ms with pattern := patternName }
  if patternName ≠ "none" then
    match PATTERNS patternName with
    | some p =>
      if p.affectedSegments.length > 0 then
        let st0 : SevMap := List.replicate 17 1
        let severity := if p.severity = 0 then 3 else p.severity
        let st1 := p.affectedSegments.foldl (fun s id => s.set (id - 1) severity) st0
        { state := st1, pattern := patternName }
      else ms
    | none => ms
  else ms

/-! ### Findings text: `generateMotilityReport` (hemodynamics.js 474-621) -/

/-- Append a level under a wall key, preserving JavaScript object insertion
order: a new wall is appended at the end, an existing wall's level list grows
at its end. -/
def assocAppend : List (String × List String) → String → String → List (String × List String)
  | [], w, l => [(w, [l])]
  | (w', ls) :: rest, w, l =>
    if w' = w then (w', ls ++ [l]) :: rest else (w', ls) :: assocAppend rest w l

/-- Group a tier's segment ids into wall → levels (hemodynamics.js 547-566). -/
def groupWalls (ids : List Nat) : List (String × List String) :=
  ids.foldl (fun acc id => assocAppend acc (getWallName id) (getLevel id)) []

/-- One wall description (hemodynamics.js 576-604): sort and deduplicate the
levels, render them, and special-case the apex wall. -/
def wallDescription (wall : String) (levels : List String) : String :=
  let sortedLevels := sortLevels levels
  let uniqueLevels := dedupFirst sortedLevels
  let levelsText :=
    if uniqueLevels.length = 3 then "basal, media y apical"
    else if uniqueLevels.length = 2 then String.intercalate " y " uniqueLevels
    else uniqueLevels.headD ""
  let wallName := formatWallName wall
  if strToLower wallName = "apical" ∧ levelsText = "apical" then "nivel apical"
  else "pared " ++ wallName ++ " (" ++ levelsText ++ ")"

/-- Join wall descriptions (hemodynamics.js 606-615): one as-is, two with
`" y "`, three or more with commas and a final `" y "`. -/
def joinWallDescs (ds : List String) : String :=
  if ds.length = 1 then ds.headD ""
  else if ds.length = 2 then String.intercalate " y " ds
  else String.intercalate ", " ds.dropLast ++ " y " ++ (ds.getLast?).getD ""

/-- One severity tier's clause, or `none` when the tier has no walls
(hemodynamics.js 571-618). -/
def tierClause (severity : String) (walls : List (String × List String)) : Option String :=
  if walls.length = 0 then none
  else some (severity ++ " de " ++ joinWallDescs (walls.map (fun p => wallDescription p.1 p.2)))

/-- `generateMotilityReport()` (hemodynamics.js 474-621). -/
def generateMotilityReport (ms : MotilityState) : String :=
  let ab := getAbnormalSegments ms.state
  let total := totalAbnormal ms.state
  let wmsi := calculateWMSI ms.state
  if total = 0 then ""
  else
    let currentPattern := if ms.pattern ≠ "none" then PATTERNS ms.pattern else none
    let isDiffuse := (currentPattern.map (·.isDiffuse)).getD false
    let isDyssyn := (currentPattern.map (fun p => p.category == "dyssynchrony")).getD false
    if isDiffuse ∧ total ≥ 12 then
      let parts :=
        (if ab.akinetic.length > 0 then ["aquinesia"] else []) ++
        (if ab.hypokinetic.length > 0 then ["hipoquinesia"] else []) ++
        (if ab.dyskinetic.length > 0 then ["disquinesia"] else [])
      let severityText := if parts.length = 1 then parts.headD "" else String.intercalate " y " parts
      let pname := (currentPattern.map (·.name)).getD ""
      if strIncludes pname "Dilatada" then
        "Se observan trastornos segmentarios de la motilidad parietal: " ++ severityText ++
          " global difusa que no respeta un territorio coronario específico (WMSI: " ++ wmsi ++ ").\n"
      else if strIncludes pname "Hipertensiva" then
        "Se observan trastornos segmentarios de la motilidad parietal: " ++ severityText ++
          " con predominio basal y medio ventricular (WMSI: " ++ wmsi ++ ").\n"
      else
        "Se observan trastornos segmentarios de la motilidad parietal: " ++ severityText ++
          " difusa (WMSI: " ++ wmsi ++ ").\n"
    else if isDyssyn then
      let description :=
        if ms.pattern = "bcri" then
          "Se observa alteración del patrón de contracción ventricular compatible con disincronía mecánica, caracterizada por movimiento septal anómalo (septal flash), en el contexto de bloqueo completo de rama izquierda"
        else if ms.pattern = "bcrd" then
          "Motilidad parietal del ventrículo izquierdo conservada. Se observa asincronía leve del septum, en relación a bloqueo completo de rama derecha"
        else if ms.pattern = "pacemaker" then
          "Se observa patrón de contracción disincrónico del ventrículo izquierdo, con movimiento septal paradójico, en relación a estimulación ventricular por marcapasos"
        else if ms.pattern = "post_surgery" then
          "Se observa movimiento septal anómalo, probablemente relacionado a antecedente de cirugía cardíaca"
        else (currentPattern.map (·.description)).getD ""
      description ++ " (WMSI: " ++ wmsi ++ ").\n"
    else
      let parts :=
        [("aquinesia", groupWalls ab.akinetic),
         ("hipoquinesia", groupWalls ab.hypokinetic),
         ("disquinesia", groupWalls ab.dyskinetic)].filterMap
          (fun p => tierClause p.1 p.2)
      "Se observan trastornos segmentarios de la motilidad parietal, con " ++
        String.intercalate "; " parts ++ " (WMSI: " ++ wmsi ++ ").\n"

/-! ### Conclusion text: `generateConclusion` (hemodynamics.js 624-722) -/

/-- Pattern-keyed canned conclusions (hemodynamics.js 634-679).  The direct
fixes for `dilated_cm`, `post_surgery`, `bcri`, `pacemaker`, `bcrd` come
first; otherwise the category of the resolved pattern selects a switch whose
unmatched cases fall through (`none`) to the territory logic. -/
def patternConclusion (pat : String) : Option String :=
  if pat = "dilated_cm" then some "Patrón de hipoquinesia global, sugestivo de miocardiopatía dilatada."
  else if pat = "post_surgery" then some "Movimiento septal anómalo en relación a antecedentes quirúrgicos."
  else if pat = "bcri" then some "Patrón de contracción disincrónico con movimiento septal paradójico, en relación a BCRI."
  else if pat = "pacemaker" then some "Disincronía mecánica secundaria a estimulación ventricular por marcapasos."
  else if pat = "bcrd" then some "Asincronía septal leve en relación a BCRD."
  else
    match PATTERNS pat with
    | some p =>
      if p.category = "combined" then
        if pat = "da_cx" then some "Patrón sugestivo de afectación combinada DA–Cx."
        else if pat = "da_cd_wrap" then some "Patrón compatible con DA envolvente."
        else if pat = "cx_cd" then some "Patrón sugestivo de afectación combinada Cx–CD."
        else if pat = "multivessel" then some "Patrón sugestivo de enfermedad coronaria multivaso."
        else if pat = "left_main" then some "Patrón sugestivo de afectación del Tronco de CI."
        else if pat = "da_distal" then some "Patrón sugestivo de lesión de DA distal."
        else none
      else if p.category = "dyssynchrony" then
        if pat = "bcri" then some "Patrón de contracción disincrónico con movimiento septal paradójico, en relación a BCRI."
        else if pat = "bcrd" then some "Asincronía septal leve en relación a BCRD."
        else if pat = "pacemaker" then some "Disincronía mecánica secundaria a estimulación ventricular por marcapasos."
        else none
      else if p.category = "cardiomyopathy" then
        if pat = "dilated_cm" then some "Patrón de hipoquinesia global, sugestivo de miocardiopatía dilatada."
        else if pat = "hypertensive_cm" then some "Patrón sugestivo de cardiopatía hipertensiva."
        else if pat = "chagas" then some "Patrón sugestivo de miocardiopatía chagásica."
        else none
      else if p.category = "takotsubo" then
        some "Patrón sugestivo de Miocardiopatía por Estrés (Takotsubo)."
      else none
    | none => none

/-- Per-territory tier counts for the conclusions (hemodynamics.js 682-690). -/
def territoryTierCounts (st : SevMap) (artery : String) : Nat × Nat × Nat :=
  let ab := getAbnormalSegments st
  (ab.hypokinetic.countP (fun id => segArtery id = artery),
   ab.akinetic.countP (fun id => segArtery id = artery),
   ab.dyskinetic.countP (fun id => segArtery id = artery))

/-- Territory branch of `generateConclusion` (hemodynamics.js 681-721). -/
def territoryConclusion (st : SevMap) : String :=
  let counts := fun t => territoryTierCounts st t
  let totalOf := fun t =>
    (counts t).1 + (counts t).2.1 + (counts t).2.2
  let affectedTerritories := (["DA", "CD", "Cx"]).filter (fun t => totalOf t > 0)
  if affectedTerritories.length = 1 then
    "Trastornos de la motilidad Segmentaria en Territorio " ++ affectedTerritories.headD "" ++ "."
  else
    let parts := affectedTerritories.map (fun t =>
      let c := counts t
      let severities :=
        (if c.2.1 > 0 then ["Aquinesia"] else []) ++
        (if c.1 > 0 then ["Hipoquinesia"] else []) ++
        (if c.2.2 > 0 then ["Discinesia"] else [])
      let severityText := if severities.length = 1 then severities.headD "" else String.intercalate " e " severities
      severityText ++ " en territorio de " ++ t)
    String.intercalate ", " parts ++ "."

/-- `generateConclusion()` (hemodynamics.js 624-722). -/
def generateConclusion (ms : MotilityState) : String :=
  if totalAbnormal ms.state = 0 then ""
  else
    match (if ms.pattern ≠ "none" then patternConclusion ms.pattern else none) with
    | some c => c
    | none => territoryConclusion ms.state

/-! ### Persistence: `loadFromStorage` and the constructor
(hemodynamics.js 317-321, 766-769).

`loadFromStorage` runs `saved ? JSON.parse(saved) : null` with no
try/catch, so a stored string on which `JSON.parse` throws makes the
`MotilityController` constructor throw.  `JSON.parse` is a platform builtin;
it is embedded as a recursive-descent parser of the JSON value grammar
(objects, arrays, strings with single-character escapes, optionally signed
integers, `true`/`false`/`null`) — this covers every value the store itself
writes (`JSON.stringify(this.state)`, an object of integer entries), and
strings such as `"corrupt"` that start with no JSON value are rejected
exactly as `JSON.parse` throws on them.  (Fractional/exponent numbers and
`\u` escapes are outside the modelled grammar; no claim depends on them.) -/

/-- JSON values. -/
inductive Jv where
  | null : Jv
  | bool : Bool → Jv
  | num : Int → Jv
  | str : String → Jv
  | arr : List Jv → Jv
  | obj : List (String × Jv) → Jv
  deriving Repr

/-- Skip JSON whitespace. -/
def skipWs : List Char → List Char
  | c :: r => if c = ' ' ∨ c = '\t' ∨ c = '\n' ∨ c = '\r' then skipWs r else c :: r
  | [] => []

/-- Parse the body of a JSON string literal after the opening quote. -/
def parseStrBody : List Char → Option (String × List Char)
  | [] => none
  | '"' :: r => some ("", r)
  | '\\' :: e :: r =>
    (if e = '"' then some '"'
     else if e = '\\' then some '\\'
     else if e = '/' then some '/'
     else if e = 'b' then some (Char.ofNat 8)
     else if e = 'f' then some (Char.ofNat 12)
     else if e = 'n' then some '\n'
     else if e = 'r' then some '\r'
     else if e = 't' then some '\t'
     else none).bind fun c =>
      (parseStrBody r).map fun p => (⟨c :: p.1.toList⟩, p.2)
  | c :: r => (parseStrBody r).map fun p => (⟨c :: p.1.toList⟩, p.2)

/-- Value of a maximal digit run, accumulating left to right. -/
def digitsVal (acc : Nat) : List Char → Nat × List Char
  | c :: r => if c.isDigit then digitsVal (acc * 10 + (c.toNat - 48)) r else (acc, c :: r)
  | [] => (acc, [])

/-- Parse an optionally signed integer literal. -/
def parseIntLit : List Char → Option (Int × List Char)
  | '-' :: c :: r =>
    if c.isDigit then
      let p := digitsVal (c.toNat - 48) r
      some (-(p.1 : Int), p.2)
    else none
  | c :: r =>
    if c.isDigit then
      let p := digitsVal (c.toNat - 48) r
      some ((p.1 : Int), p.2)
    else none
  | [] => none

mutual

/-- Fueled JSON value parser. -/
def parseJv : Nat → List Char → Option (Jv × List Char)
  | 0, _ => none
  | Nat.succ fuel, cs =>
    match skipWs cs with
    | '"' :: r => (parseStrBody r).map fun p => (Jv.str p.1, p.2)
    | '[' :: r =>
      (match skipWs r with
       | ']' :: r2 => some (Jv.arr [], r2)
       | r2 => (parseArrItems fuel r2).map fun p => (Jv.arr p.1, p.2))
    | '{' :: r =>
      (match skipWs r with
       | '}' :: r2 => some (Jv.obj [], r2)
       | r2 => (parseObjItems fuel r2).map fun p => (Jv.obj p.1, p.2))
    | 't' :: r => if ['r', 'u', 'e'].isPrefixOf r then some (Jv.bool true, r.drop 3) else none
    | 'f' :: r => if ['a', 'l', 's', 'e'].isPrefixOf r then some (Jv.bool false, r.drop 4) else none
    | 'n' :: r => if ['u', 'l', 'l'].isPrefixOf r then some (Jv.null, r.drop 3) else none
    | cs' => (parseIntLit cs').map fun p => (Jv.num p.1, p.2)

/-- Items of a non-empty JSON array. -/
def parseArrItems : Nat → List Char → Option (List Jv × List Char)
  | 0, _ => none
  | Nat.succ fuel, cs =>
    (parseJv fuel cs).bind fun p =>
      match skipWs p.2 with
      | ',' :: r => (parseArrItems fuel r).map fun q => (p.1 :: q.1, q.2)
      | ']' :: r => some ([p.1], r)
      | _ => none

/-- Members of a non-empty JSON object. -/
def parseObjItems : Nat → List Char → Option (List (String × Jv) × List Char)
  | 0, _ => none
  | Nat.succ fuel, cs =>
    match skipWs cs with
    | '"' :: r =>
      (parseStrBody r).bind fun pk =>
        match skipWs pk.2 with
        | ':' :: r2 =>
          (parseJv fuel r2).bind fun pv =>
            match skipWs pv.2 with
            | ',' :: r3 => (parseObjItems fuel r3).map fun q => ((pk.1, pv.1) :: q.1, q.2)
            | '}' :: r3 => some ([(pk.1, pv.1)], r3)
            | _ => none
        | _ => none
    | _ => none

end

/-- Model of `JSON.parse`: `none` where `JSON.parse` throws. -/
def jsonParse (s : String) : Option Jv :=
  match parseJv (s.length + 2) s.toList with
  | some (v, rest) => if skipWs rest = [] then some v else none
  | none => none

/-- `loadFromStorage()` (hemodynamics.js 766-769) given the raw stored value
of the `'motility-state'` key: absent key yields `null`; a present key is fed
to `JSON.parse`, whose exception propagates (no try/catch). -/
def loadFromStorage (saved : Option String) : Except Unit (Option Jv) :=
  match saved with
  | none => Except.ok none
  | some s =>
    match jsonParse s with
    | some v => Except.ok (some v)
    | none => Except.error ()

/-- The default state as the JSON value `JSON.stringify` would produce. -/
def defaultStateJv : Jv :=
  Jv.obj ((List.range 17).map (fun i => (toString (i + 1), Jv.num 1)))

/-- The constructor line `this.state = this.loadFromStorage() ||
this.getDefaultState()` (hemodynamics.js 318): falls back to the default only
on a falsy (`null`) load result; an exception from `JSON.parse` propagates
out of the constructor. -/
def motilityCtorState (saved : Option String) : Except Unit Jv :=
  (loadFromStorage saved).map (fun r => r.getD defaultStateJv)

/-! ### Conclusion-assembly fragments of `UIController.generateReport`
(ui-lanus.js 884-1145) -/

/-- The pulmonary-hypertension step (ui-lanus.js 1129-1139): given the
current conclusion number, emit the banded sentence and increment the number
only when `this.state.psap > 0`. -/
def psapStep (psap : Int) (conclusionNum : Nat) : String × Nat :=
  if psap > 0 then
    if psap ≤ 35 then
      (toString conclusionNum ++ ". Grado de sospecha de Hipertensión pulmonar: Baja.\n",
       conclusionNum + 1)
    else if psap ≤ 45 then
      (toString conclusionNum ++ ". Grado de sospecha de Hipertensión pulmonar: Intermedia (PSAP " ++
        toString psap ++ " mmHg).\n", conclusionNum + 1)
    else
      (toString conclusionNum ++ ". Signos de Hipertensión pulmonar (PSAP " ++
        toString psap ++ " mmHg).\n", conclusionNum + 1)
  else ("", conclusionNum)

/-- The right-ventricular-dysfunction step that follows it (ui-lanus.js
1142-1145). -/
def rvStep (tapse : Int) (conclusionNum : Nat) : String × Nat :=
  if tapse < 16 then
    (toString conclusionNum ++ ". Disfunción del ventrículo derecho.\n", conclusionNum + 1)
  else ("", conclusionNum)

/-- JavaScript `\w` word character ([A-Za-z0-9_]). -/
def isWordChar (c : Char) : Bool :=
  (('a' ≤ c ∧ c ≤ 'z') ∨ ('A' ≤ c ∧ c ≤ 'Z') ∨ ('0' ≤ c ∧ c ≤ '9') ∨ c = '_')

/-- Accumulator for `wordRuns`: `cur` holds the reversed current word run. -/
def wordRunsAux (cur : List Char) : List Char → List (List Char)
  | [] => if cur = [] then [] else [cur.reverse]
  | c :: r =>
    if isWordChar c then wordRunsAux (c :: cur) r
    else (if cur = [] then [] else [cur.reverse]) ++ [c] :: wordRunsAux [] r

/-- Split into maximal word-character runs and single non-word characters. -/
def wordRuns (cs : List Char) : List (List Char) := wordRunsAux [] cs

/-- The four chained case-insensitive whole-word replacements
`\bda\b → DA`, `\bcd\b → CD`, `\bcx\b → Cx`, `\bwmsi\b → WMSI`
(ui-lanus.js 928-931).  A `\btoken\b/gi` match is exactly a maximal
word-character run whose lowercasing equals the token, and the four
replacements neither overlap nor enable one another, so a single pass over
the word runs is equivalent. -/
def restoreAcronyms (s : String) : String :=
  ⟨(wordRuns s.toList).flatMap (fun run =>
    let w : String := ⟨run⟩
    if strToLower w = "da" then "DA".toList
    else if strToLower w = "cd" then "CD".toList
    else if strToLower w = "cx" then "Cx".toList
    else if strToLower w = "wmsi" then "WMSI".toList
    else run)⟩

/-- Lowercase the first character only
(`motilityText.charAt(0).toLowerCase() + motilityText.slice(1)`). -/
def lowerFirst (s : String) : String :=
  match s.toList with
  | [] => ""
  | c :: r => ⟨c.toLower :: r⟩

/-- Strip one trailing period (ui-lanus.js 921-923). -/
def stripTrailingDot (t : String) : String :=
  if t.toList.getLast? = some '.' then (⟨t.toList.dropLast⟩ : String) else t

/-- The transformed motility clause (ui-lanus.js 920-931): trim, strip one
trailing period, lowercase the first letter, restore the acronym tokens. -/
def mergedClause (s : String) : String :=
  restoreAcronyms (lowerFirst (stripTrailingDot (strTrim s)))

/-- The motility-conclusion merge (ui-lanus.js 916-941), returning the text
appended to `viConclusion` for a motility conclusion whose trimmed form is
non-empty: the transformed clause is prefixed with `" e "` or `" y "`
according to the first word of the clause (lowercased; JavaScript
`split(' ')[0]`). -/
def mergeMotility (s : String) : String :=
  let t3 := mergedClause s
  let firstWord := strToLower ((splitOnSpace t3).headD "")
  if strStartsWith firstWord "i" ∨ (strStartsWith firstWord "hi" ∧ ¬ strStartsWith firstWord "hie") then
    " e " ++ t3
  else
    " y " ++ t3

/-! ### Spec-side definitions and concrete example states used in the
claim theorems -/

/-- Spec-side severity cycle Normal → Hypokinetic → Akinetic → Dyskinetic →
Normal (claim C6's wording). -/
def specCycleNext (v : Int) : Int :=
  if v = 1 then 2 else if v = 2 then 3 else if v = 3 then 4 else 1

/-- Largest per-territory abnormal-segment count. -/
def maxTerrScore (st : SevMap) : Nat :=
  max (terrScore st "DA") (max (terrScore st "CD") (terrScore st "Cx"))

/-- Spec-side euphonic condition (claim C8's wording): the clause's first
word, case-insensitively, begins with "i", or with "hi" but not "hie". -/
def euphonicE (clause : String) : Bool :=
  let w := strToLower ((splitOnSpace clause).headD "")
  strStartsWith w "i" || (strStartsWith w "hi" && ! strStartsWith w "hie")

/-- Concrete state: segments 1 (territory DA) and 3 (territory CD)
hypokinetic, everything else normal — DA and CD abnormal counts tie at 1. -/
def tieState : SevMap := [2, 1, 2, 1, 1, 1, 1, 1, 1, 1, 1, 1, 1, 1, 1, 1, 1]

/-- Concrete state: segments 1, 7 and 13 akinetic, everything else normal. -/
def antAkiState : SevMap := [3, 1, 1, 1, 1, 1, 3, 1, 1, 1, 1, 1, 3, 1, 1, 1, 1]

/-- Concrete state: segment 1 akinetic, segment 4 hypokinetic, segment 5
dyskinetic. -/
def mixedTierState : SevMap := [3, 1, 1, 2, 4, 1, 1, 1, 1, 1, 1, 1, 1, 1, 1, 1, 1]

/-- The severity map produced by applying the dilated_cm pattern: segments
1..16 hypokinetic, segment 17 normal. -/
def dilatedState : SevMap := List.replicate 16 2 ++ [1]

/-! ## Theorems -/

/-- Helper: reading the written position of `List.set`. -/
theorem getD_set_self (l : List Int) (i : Nat) (a : Int) (h : i < l.length) :
    (l.set i a).getD i 0 = a := by
  simp [List.getD_eq_getElem?_getD, List.getElem?_set_self', List.getElem?_eq_getElem h]

/-- Helper: reading an untouched position of `List.set`. -/
theorem getD_set_ne (l : List Int) (i j : Nat) (a : Int) (h : i ≠ j) :
    (l.set i a).getD j 0 = l.getD j 0 := by
  simp [List.getD_eq_getElem?_getD, List.getElem?_set_ne h]

/-- Helper: writing back the value already stored is the identity. -/
theorem set_getD_self (l : List Int) (i : Nat) (h : i < l.length) :
    l.set i (l.getD i 0) = l := by
  apply List.ext_getElem?
  intro j
  by_cases hij : i = j
  · subst hij
    simp [List.getElem?_set_self', List.getD_eq_getElem?_getD, List.getElem?_eq_getElem h]
  · simp [List.getElem?_set_ne hij]

/-- C1, counterexample: at the state with exactly segments 1 (DA) and 3 (CD)
abnormal the two counts tie at 1, yet `getAffectedTerritory` returns CD, not
the claimed DA: the `reduce` keeps the later key on a tie. -/
theorem claim1_counterexample :
    terrScore tieState "DA" = 1 ∧ terrScore tieState "CD" = 1 ∧
      terrScore tieState "Cx" = 0 ∧
      getAffectedTerritory tieState = some "CD" ∧
      getAffectedTerritory tieState ≠ some "DA" := by
  refine ⟨rfl, rfl, rfl, rfl, ?_⟩
  decide

/-- C1, amended: with no abnormal segments `getAffectedTerritory` returns
null; otherwise it returns a territory with the maximum abnormal count, and
on ties the LAST of the fixed order DA, CD, Cx among the tied set (every
territory listed after the returned one scores strictly below the maximum). -/
theorem claim1_theorem (st : SevMap) :
    (getAffectedTerritory st = none ↔ (abnormalIds st).length = 0)
    ∧ ((abnormalIds st).length ≠ 0 → ∃ t, getAffectedTerritory st = some t)
    ∧ (getAffectedTerritory st = some "DA" →
        terrScore st "DA" = maxTerrScore st ∧ terrScore st "CD" < maxTerrScore st
          ∧ terrScore st "Cx" < maxTerrScore st)
    ∧ (getAffectedTerritory st = some "CD" →
        terrScore st "CD" = maxTerrScore st ∧ terrScore st "Cx" < maxTerrScore st)
    ∧ (getAffectedTerritory st = some "Cx" →
        terrScore st "Cx" = maxTerrScore st) := by
  unfold getAffectedTerritory maxTerrScore
  by_cases h0 : (abnormalIds st).length = 0
  · simp [h0]
  · simp only [h0, if_false]
    refine ⟨by simp [h0], fun _ => ⟨_, rfl⟩, ?_, ?_, ?_⟩ <;>
    · intro h
      split_ifs at h with h1 h2 h2 <;>
        simp_all <;> omega

/-- C1 witness: the amended theorem applied at the tie state, where the
result CD indeed attains the maximum count and Cx is strictly below it. -/
theorem claim1_witness :
    terrScore tieState "CD" = maxTerrScore tieState ∧
      terrScore tieState "Cx" < maxTerrScore tieState :=
  (claim1_theorem tieState).2.2.2.1 rfl

/-- C2 [code bug]: `loadFromStorage` applies `JSON.parse` with no try/catch,
so with the corrupt (non-JSON) string "corrupt" stored under the
severity-map key the constructor throws instead of falling back to the
default state — the fallback happens only when the key is absent. -/
theorem claim2_theorem :
    jsonParse "corrupt" = none
      ∧ motilityCtorState (some "corrupt") = Except.error ()
      ∧ motilityCtorState none = Except.ok defaultStateJv :=
  ⟨rfl, rfl, rfl⟩

/-- C3: with segments 1, 7, 13 akinetic and no pattern the findings text
contains "pared anterior (basal, media y apical)" exactly once (the three
levels grouped under the anterior wall, sorted basal/media/apical); and with
one segment in each tier the clauses appear in the fixed order aquinesia,
hipoquinesia, disquinesia. -/
theorem claim3_theorem :
    generateMotilityReport ⟨antAkiState, "none"⟩ =
      "Se observan trastornos segmentarios de la motilidad parietal, con aquinesia de pared anterior (basal, media y apical) (WMSI: 1.35).\n"
    ∧ countSubstr (generateMotilityReport ⟨antAkiState, "none"⟩)
        "pared anterior (basal, media y apical)" = 1
    ∧ generateMotilityReport ⟨mixedTierState, "none"⟩ =
      "Se observan trastornos segmentarios de la motilidad parietal, con aquinesia de pared anterior (basal); hipoquinesia de pared inferior (basal); disquinesia de pared inferolateral (basal) (WMSI: 1.35).\n" :=
  ⟨rfl, rfl, rfl⟩

/-- C5: applying the dilated_cm pattern from any state resets and then sets
segments 1..16 to Hypokinetic (severity 2), leaves segment 17 Normal, groups
exactly ids 1..16 into the hypokinetic tier, and the findings text is the
single diffuse-pattern global sentence containing "difusa". -/
theorem claim5_theorem (ms : MotilityState) :
    setPattern "dilated_cm" ms = ⟨dilatedState, "dilated_cm"⟩
    ∧ getAbnormalSegments dilatedState =
        ⟨[1, 2, 3, 4, 5, 6, 7, 8, 9, 10, 11, 12, 13, 14, 15, 16], [], []⟩
    ∧ dilatedState.getD 16 0 = 1
    ∧ generateMotilityReport ⟨dilatedState, "dilated_cm"⟩ =
        "Se observan trastornos segmentarios de la motilidad parietal: hipoquinesia global difusa que no respeta un territorio coronario específico (WMSI: 1.94).\n"
    ∧ strIncludes (generateMotilityReport ⟨dilatedState, "dilated_cm"⟩) "difusa" = true :=
  ⟨rfl, rfl, rfl, rfl, rfl⟩

/-- C5 witness: the theorem applied at the default state. -/
theorem claim5_witness :
    setPattern "dilated_cm" ⟨getDefaultState, "none"⟩ = ⟨dilatedState, "dilated_cm"⟩ :=
  (claim5_theorem ⟨getDefaultState, "none"⟩).1

/-- C9: `setSegmentState` with a severity outside 1..4 is a complete no-op
(state unchanged, nothing persisted, no listener notified); with a severity
inside 1..4 it persists, notifies, writes exactly the requested segment and
leaves every other segment unchanged. -/
theorem claim9_theorem (st : SevMap) (id : Nat) (v : Int)
    (hid1 : 1 ≤ id) (hid2 : id ≤ 17) (hlen : st.length = 17) :
    (¬ (1 ≤ v ∧ v ≤ 4) → setSegmentState id v st = ⟨st, false, false⟩)
    ∧ ((1 ≤ v ∧ v ≤ 4) →
        (setSegmentState id v st).persisted = true
        ∧ (setSegmentState id v st).notified = true
        ∧ (setSegmentState id v st).state.getD (id - 1) 0 = v
        ∧ ∀ j, 1 ≤ j → j ≤ 17 → j ≠ id →
            (setSegmentState id v st).state.getD (j - 1) 0 = st.getD (j - 1) 0) := by
  constructor
  · intro h
    simp [setSegmentState, h]
  · intro h
    have hstate : setSegmentState id v st = ⟨st.set (id - 1) v, true, true⟩ := by
      simp [setSegmentState, h]
    rw [hstate]
    refine ⟨rfl, rfl, ?_, ?_⟩
    · exact getD_set_self st (id - 1) v (by omega)
    · intro j hj1 hj2 hj
      exact getD_set_ne st (id - 1) (j - 1) v (by omega)

/-- C9 witness: severity 7 at segment 5 of the default state is a no-op, and
severity 3 at segment 5 persists, notifies and writes segment 5. -/
theorem claim9_witness :
    setSegmentState 5 7 getDefaultState = ⟨getDefaultState, false, false⟩
      ∧ (setSegmentState 5 3 getDefaultState).persisted = true
      ∧ (setSegmentState 5 3 getDefaultState).state.getD 4 0 = 3 :=
  ⟨(claim9_theorem getDefaultState 5 7 (by decide) (by decide) (by decide)).1 (by decide),
   ((claim9_theorem getDefaultState 5 3 (by decide) (by decide) (by decide)).2 (by decide)).1,
   ((claim9_theorem getDefaultState 5 3 (by decide) (by decide) (by decide)).2 (by decide)).2.2.1⟩

/-- C10: applying the bcrd pattern (default severity 1, i.e. Normal) from
any state yields the all-Normal map, hence zero abnormal segments and empty
findings and conclusion texts; the canned BCRD sentences appear exactly when
some segment is abnormal while the bcrd pattern is active. -/
theorem claim10_theorem :
    (∀ ms : MotilityState,
      setPattern "bcrd" ms = ⟨List.replicate 17 1, "bcrd"⟩
      ∧ totalAbnormal (setPattern "bcrd" ms).state = 0
      ∧ generateMotilityReport (setPattern "bcrd" ms) = ""
      ∧ generateConclusion (setPattern "bcrd" ms) = "")
    ∧ (∀ st : SevMap, totalAbnormal st ≠ 0 →
        generateConclusion ⟨st, "bcrd"⟩ = "Asincronía septal leve en relación a BCRD."
        ∧ generateMotilityReport ⟨st, "bcrd"⟩ =
            "Motilidad parietal del ventrículo izquierdo conservada. Se observa asincronía leve del septum, en relación a bloqueo completo de rama derecha (WMSI: " ++
              calculateWMSI st ++ ").\n") := by
  constructor
  · intro ms
    exact ⟨rfl, rfl, rfl, rfl⟩
  · intro st h
    constructor
    · unfold generateConclusion
      rw [if_neg h]
      rfl
    · unfold generateMotilityReport
      rw [if_neg h]
      rfl

/-- C10 witness: instantiated at the default state and at a state with
segment 1 hypokinetic. -/
theorem claim10_witness :
    setPattern "bcrd" ⟨getDefaultState, "none"⟩ = ⟨List.replicate 17 1, "bcrd"⟩
      ∧ generateConclusion ⟨tieState, "bcrd"⟩ = "Asincronía septal leve en relación a BCRD." :=
  ⟨(claim10_theorem.1 ⟨getDefaultState, "none"⟩).1,
   (claim10_theorem.2 tieState (by decide)).1⟩

/-- C4: for every assignment of severities 1..4 to the 17 segments the WMSI
in hundredths is the round-half-up of `100 × (sum of ordinals) / 17`, lies in
[1.00, 4.00], and equals 1.00 / 4.00 at the all-Normal / all-Dyskinetic
states. -/
theorem claim4_theorem (st : SevMap) (hlen : st.length = 17)
    (hv : ∀ v ∈ st, 1 ≤ v ∧ v ≤ 4) :
    calculateWMSIh st = round (100 * (sumVals st : ℚ) / 17)
    ∧ 100 ≤ calculateWMSIh st ∧ calculateWMSIh st ≤ 400
    ∧ calculateWMSI getDefaultState = "1.00"
    ∧ calculateWMSI (List.replicate 17 4) = "4.00" := by
  have hs1 : (17 : ℤ) ≤ sumVals st := by
    have h := List.card_nsmul_le_sum st 1 (fun y hy => (hv y hy).1)
    rw [hlen] at h
    simpa using h
  have hs2 : sumVals st ≤ 68 := by
    have h := List.sum_le_card_nsmul st 4 (fun y hy => (hv y hy).2)
    rw [hlen] at h
    have h68 : (17 : ℕ) • (4 : ℤ) = 68 := by norm_num
    rw [h68] at h
    exact h
  refine ⟨?_, ?_, ?_, rfl, rfl⟩
  · have h1 : (100 : ℚ) * (sumVals st : ℚ) / 17 + 1 / 2 =
        ((200 * sumVals st + 17 : ℤ) : ℚ) / ((34 : ℕ) : ℚ) := by
      push_cast
      ring
    rw [round_eq, h1, Rat.floor_intCast_div_natCast]
    norm_num [calculateWMSIh]
  · unfold calculateWMSIh
    omega
  · unfold calculateWMSIh
    omega

/-- C4 witness: the theorem applied to the all-Hypokinetic state. -/
theorem claim4_witness :
    calculateWMSIh (List.replicate 17 (2 : ℤ)) =
        round (100 * (sumVals (List.replicate 17 (2 : ℤ)) : ℚ) / 17)
      ∧ 100 ≤ calculateWMSIh (List.replicate 17 (2 : ℤ))
      ∧ calculateWMSIh (List.replicate 17 (2 : ℤ)) ≤ 400
      ∧ calculateWMSI getDefaultState = "1.00"
      ∧ calculateWMSI (List.replicate 17 4) = "4.00" :=
  claim4_theorem (List.replicate 17 2) (by decide) (by decide)

/-- C6: toggling a segment whose severity is in 1..4 advances it along the
cycle Normal → Hypokinetic → Akinetic → Dyskinetic → Normal, leaves every
other segment unchanged, and four toggles restore the original state. -/
theorem claim6_theorem (st : SevMap) (id : Nat)
    (hid1 : 1 ≤ id) (hid2 : id ≤ 17) (hlen : st.length = 17)
    (hv1 : 1 ≤ st.getD (id - 1) 0) (hv2 : st.getD (id - 1) 0 ≤ 4) :
    (toggleSegment id st).getD (id - 1) 0 = specCycleNext (st.getD (id - 1) 0)
    ∧ (∀ j, 1 ≤ j → j ≤ 17 → j ≠ id →
        (toggleSegment id st).getD (j - 1) 0 = st.getD (j - 1) 0)
    ∧ toggleSegment id (toggleSegment id (toggleSegment id (toggleSegment id st))) = st := by
  have hlt : id - 1 < st.length := by omega
  refine ⟨?_, ?_, ?_⟩
  · rw [toggleSegment, getD_set_self st (id - 1) _ hlt]
    set w := st.getD (id - 1) 0 with hw
    interval_cases w <;> decide
  · intro j hj1 hj2 hj
    exact getD_set_ne st (id - 1) (j - 1) _ (by omega)
  · have key : ∀ w : Int, toggleSegment id (st.set (id - 1) w) =
        st.set (id - 1) (w.tmod 4 + 1) := by
      intro w
      show (st.set (id - 1) w).set (id - 1)
          (((st.set (id - 1) w).getD (id - 1) 0).tmod 4 + 1) = _
      rw [getD_set_self _ _ _ (by simpa using hlt), List.set_set]
    have h1 : toggleSegment id st =
        st.set (id - 1) ((st.getD (id - 1) 0).tmod 4 + 1) := rfl
    rw [h1, key, key, key]
    have hv4 : ((((st.getD (id - 1) 0).tmod 4 + 1).tmod 4 + 1).tmod 4 + 1).tmod 4 + 1 =
        st.getD (id - 1) 0 := by
      set w := st.getD (id - 1) 0 with hw
      interval_cases w <;> decide
    rw [hv4]
    exact set_getD_self st (id - 1) hlt

/-- C6 witness: the theorem applied at segment 3 of the tie state (severity
2 there), whose toggle yields 3 and whose fourth iterate is the identity. -/
theorem claim6_witness :
    (toggleSegment 3 tieState).getD 2 0 = specCycleNext (tieState.getD 2 0)
      ∧ toggleSegment 3 (toggleSegment 3 (toggleSegment 3 (toggleSegment 3 tieState))) = tieState :=
  ⟨(claim6_theorem tieState 3 (by decide) (by decide) (by decide) (by decide) (by decide)).1,
   (claim6_theorem tieState 3 (by decide) (by decide) (by decide) (by decide) (by decide)).2.2⟩

/-- C7: the pulmonary-hypertension conclusion step emits nothing and leaves
the conclusion number unchanged when PSAP ≤ 0 (so the next emitted sentence —
e.g. the RV-dysfunction one — keeps the numbering contiguous), and when
PSAP > 0 it emits the banded sentence (≤ 35 "Baja", ≤ 45 "Intermedia" —
hence PSAP 40 → "Intermedia" — otherwise the overt sentence, hence PSAP 70 →
"Signos de Hipertensión pulmonar") and increments the number. -/
theorem claim7_theorem (n : Nat) (psap tapse : Int) :
    (psap ≤ 0 → psapStep psap n = ("", n))
    ∧ (psap ≤ 0 → tapse < 16 →
        rvStep tapse (psapStep psap n).2 =
          (toString n ++ ". Disfunción del ventrículo derecho.\n", n + 1))
    ∧ (0 < psap → psap ≤ 35 →
        psapStep psap n =
          (toString n ++ ". Grado de sospecha de Hipertensión pulmonar: Baja.\n", n + 1))
    ∧ (35 < psap → psap ≤ 45 →
        psapStep psap n =
          (toString n ++ ". Grado de sospecha de Hipertensión pulmonar: Intermedia (PSAP " ++
            toString psap ++ " mmHg).\n", n + 1))
    ∧ (45 < psap →
        psapStep psap n =
          (toString n ++ ". Signos de Hipertensión pulmonar (PSAP " ++
            toString psap ++ " mmHg).\n", n + 1))
    ∧ psapStep 40 3 =
        ("3. Grado de sospecha de Hipertensión pulmonar: Intermedia (PSAP 40 mmHg).\n", 4)
    ∧ psapStep 70 3 =
        ("3. Signos de Hipertensión pulmonar (PSAP 70 mmHg).\n", 4) := by
  refine ⟨?_, ?_, ?_, ?_, ?_, rfl, rfl⟩
  · intro h1
    unfold psapStep
    rw [if_neg (by omega)]
  · intro h1 h2
    have h : psapStep psap n = ("", n) := by
      unfold psapStep
      rw [if_neg (by omega)]
    rw [h]
    unfold rvStep
    rw [if_pos h2]
  · intro h1 h2
    unfold psapStep
    split_ifs <;> first | rfl | (exfalso; omega)
  · intro h1 h2
    unfold psapStep
    split_ifs <;> first | rfl | (exfalso; omega)
  · intro h1
    unfold psapStep
    split_ifs <;> first | rfl | (exfalso; omega)

/-- C7 witness: the theorem instantiated at conclusion number 5, PSAP 0 with
TAPSE 10, and at the banded values 20, 40, 70. -/
theorem claim7_witness :
    psapStep 0 5 = ("", 5)
      ∧ rvStep 10 (psapStep 0 5).2 = ("5. Disfunción del ventrículo derecho.\n", 6)
      ∧ psapStep 20 5 = ("5. Grado de sospecha de Hipertensión pulmonar: Baja.\n", 6)
      ∧ psapStep 40 5 =
          ("5. Grado de sospecha de Hipertensión pulmonar: Intermedia (PSAP 40 mmHg).\n", 6)
      ∧ psapStep 70 5 = ("5. Signos de Hipertensión pulmonar (PSAP 70 mmHg).\n", 6) :=
  ⟨(claim7_theorem 5 0 10).1 (by decide),
   (claim7_theorem 5 0 10).2.1 (by decide) (by decide),
   (claim7_theorem 5 20 10).2.2.1 (by decide) (by decide),
   (claim7_theorem 5 40 10).2.2.2.1 (by decide) (by decide),
   (claim7_theorem 5 70 10).2.2.2.2.1 (by decide)⟩

/-- Helper for C8: the merge output is the clause prefixed by " e " exactly
under the euphonic condition, else by " y ". -/
theorem mergeMotility_eq (s : String) :
    mergeMotility s =
      if euphonicE (mergedClause s) = true then " e " ++ mergedClause s
      else " y " ++ mergedClause s := by
  unfold mergeMotility euphonicE
  by_cases h : strStartsWith (strToLower ((splitOnSpace (mergedClause s)).headD "")) "i" = true
      ∨ (strStartsWith (strToLower ((splitOnSpace (mergedClause s)).headD "")) "hi" = true
          ∧ ¬ strStartsWith (strToLower ((splitOnSpace (mergedClause s)).headD "")) "hie" = true)
  · rw [if_pos h, if_pos]
    simpa [Bool.or_eq_true, Bool.and_eq_true, Bool.not_eq_true'] using h
  · rw [if_neg h, if_neg]
    simpa [Bool.or_eq_true, Bool.and_eq_true, Bool.not_eq_true'] using h

/-- Helper for C8: the two possible conjunction prefixes differ. -/
theorem mergePrefixNe (t : String) : (" y " ++ t) ≠ (" e " ++ t) := by
  intro h
  have hdata := congrArg String.data h
  simp [String.data_append] at hdata

/-- C8: the merged motility clause is the conclusion with its trailing
period stripped, first letter lowercased and the DA/CD/Cx/WMSI tokens
restored; the conjunction is " e " exactly when the clause's first word
(case-insensitively) begins with "i", or with "hi" but not "hie", and " y "
otherwise — illustrated on concrete conclusion strings of the motility
generator. -/
theorem claim8_theorem (s : String) :
    (mergeMotility s = " e " ++ mergedClause s ∨ mergeMotility s = " y " ++ mergedClause s)
    ∧ (mergeMotility s = " e " ++ mergedClause s ↔ euphonicE (mergedClause s) = true)
    ∧ mergeMotility "Trastornos de la motilidad Segmentaria en Territorio DA." =
        " y trastornos de la motilidad Segmentaria en Territorio DA"
    ∧ mergeMotility "Hipoquinesia en territorio de DA, Aquinesia en territorio de CD." =
        " e hipoquinesia en territorio de DA, Aquinesia en territorio de CD"
    ∧ mergeMotility "Inferior." = " e inferior"
    ∧ mergeMotility "DA ocluida." = " y DA ocluida" := by
  refine ⟨?_, ⟨?_, ?_⟩, rfl, rfl, rfl, rfl⟩
  · rw [mergeMotility_eq]
    by_cases h : euphonicE (mergedClause s) = true
    · rw [if_pos h]
      exact Or.inl rfl
    · rw [if_neg h]
      exact Or.inr rfl
  · intro he
    by_cases h : euphonicE (mergedClause s) = true
    · exact h
    · rw [mergeMotility_eq, if_neg h] at he
      exact absurd he (mergePrefixNe _)
  · intro h
    rw [mergeMotility_eq, if_pos h]

/-- C8 witness: the theorem applied at a concrete hypokinesia-first
conclusion, with the euphonic direction of the iff discharged there. -/
theorem claim8_witness :
    mergeMotility "Hipoquinesia en territorio de CD." =
      " e " ++ mergedClause "Hipoquinesia en territorio de CD." :=
  (claim8_theorem ("Hipoquinesia en territorio de CD.")).2.1.2 (by decide)

end Ecodoppler
